import Mathlib

/-!
Verification of the fitness-tracker module `homework.py`.

Numbers are modelled as exact rationals (`ℚ`).  Python raises
`ZeroDivisionError` when a float is divided by zero, so every division in
the computation layer is embedded as the checked division `div?`, making
each computation `Option`-valued: `none` marks the raised exception.
The class hierarchy `Training` / `Running` / `SportsWalking` / `Swimming`
is embedded as one structure per concrete class plus the closed sum
`Training`; the dispatcher `read_package` returns an `Except` whose error
constructors mirror the two `except` arms of the Python code.
-/

/-- Checked division: Python float division by zero raises, modelled as `none`. -/
def div? (a b : ℚ) : Option ℚ := if b = 0 then none else some (a / b)

/-- The record carried by `InfoMessage` (dataclass fields, sans the constant
template field, which is folded into `get_message`). -/
structure InfoMessage where
  training_type : String
  duration : ℚ
  distance : ℚ
  speed : ℚ
  calories : ℚ
deriving DecidableEq, Repr

/-- `Training.H_IN_M` from the source. -/
def Training.H_IN_M : ℚ := 60

/-- `Training.M_IN_KM` from the source. -/
def Training.M_IN_KM : ℚ := 1000

/-- `Training.LEN_STEP`, inherited by `Running` and `SportsWalking`. -/
def Training.LEN_STEP : ℚ := 0.65

/-- Fields of the `Running` class (`Training.__init__`). -/
structure Running where
  action : ℚ
  duration_h : ℚ
  weight_kg : ℚ
deriving DecidableEq, Repr

/-- Fields of the `SportsWalking` class. -/
structure SportsWalking where
  action : ℚ
  duration_h : ℚ
  weight_kg : ℚ
  height_sm : ℚ
deriving DecidableEq, Repr

/-- Fields of the `Swimming` class. -/
structure Swimming where
  action : ℚ
  duration_h : ℚ
  weight_kg : ℚ
  length_pool_m : ℚ
  count_pool : ℚ
deriving DecidableEq, Repr

def Running.CALORIES_MEAN_SPEED_MULTIPLIER : ℚ := 18
def Running.CALORIES_MEAN_SPEED_SHIFT : ℚ := 1.79

def SportsWalking.COEF_WEIGHT : ℚ := 0.035
def SportsWalking.MEAN_SPEED_IN_2_AND_HEIGHT : ℚ := 0.029
def SportsWalking.KM_PER_H_IN_M_IN_S : ℚ := 0.278
def SportsWalking.SM_IN_M : ℚ := 100

/-- `Swimming` overrides `LEN_STEP`. -/
def Swimming.LEN_STEP : ℚ := 1.38
def Swimming.MEAN_SPEED_MOVE : ℚ := 1.1
def Swimming.SPEED_MULTIPLIER : ℚ := 2

/-- `Training.get_distance` as inherited by `Running`:
`self.action * self.LEN_STEP / self.M_IN_KM`. -/
def Running.get_distance (r : Running) : Option ℚ :=
  div? (r.action * Training.LEN_STEP) Training.M_IN_KM

/-- `Training.get_distance` as inherited by `SportsWalking`. -/
def SportsWalking.get_distance (w : SportsWalking) : Option ℚ :=
  div? (w.action * Training.LEN_STEP) Training.M_IN_KM

/-- `Training.get_distance` as inherited by `Swimming`; `LEN_STEP` resolves to
the overriding `Swimming.LEN_STEP`. -/
def Swimming.get_distance (s : Swimming) : Option ℚ :=
  div? (s.action * Swimming.LEN_STEP) Training.M_IN_KM

/-- `Training.get_mean_speed` as inherited by `Running`:
`self.get_distance() / self.duration_h`. -/
def Running.get_mean_speed (r : Running) : Option ℚ :=
  (Running.get_distance r).bind fun d => div? d r.duration_h

/-- `Training.get_mean_speed` as inherited by `SportsWalking`. -/
def SportsWalking.get_mean_speed (w : SportsWalking) : Option ℚ :=
  (SportsWalking.get_distance w).bind fun d => div? d w.duration_h

/-- `Swimming.get_mean_speed` (override):
`self.length_pool_m * self.count_pool / self.M_IN_KM / self.duration_h`. -/
def Swimming.get_mean_speed (s : Swimming) : Option ℚ :=
  (div? (s.length_pool_m * s.count_pool) Training.M_IN_KM).bind fun x =>
    div? x s.duration_h

/-- `Running.get_spent_calories`:
`(MULT * mean_speed + SHIFT) * weight_kg / M_IN_KM * minutes` with
`minutes = duration_h * H_IN_M`. -/
def Running.get_spent_calories (r : Running) : Option ℚ :=
  let minutes : ℚ := r.duration_h * Training.H_IN_M
  (Running.get_mean_speed r).bind fun ms =>
    (div? ((Running.CALORIES_MEAN_SPEED_MULTIPLIER * ms
        + Running.CALORIES_MEAN_SPEED_SHIFT) * r.weight_kg)
      Training.M_IN_KM).map fun x => x * minutes

/-- `SportsWalking.get_spent_calories`:
`(COEF_WEIGHT * weight + ((mean_speed * KM_PER_H_IN_M_IN_S) ** 2
  / height_in_metres) * MEAN_SPEED_IN_2_AND_HEIGHT * weight) * minutes`
with `minutes = duration_h * H_IN_M` and
`height_in_metres = height_sm / SM_IN_M`. -/
def SportsWalking.get_spent_calories (w : SportsWalking) : Option ℚ :=
  let minutes : ℚ := w.duration_h * Training.H_IN_M
  (div? w.height_sm SportsWalking.SM_IN_M).bind fun height_in_metres =>
    (SportsWalking.get_mean_speed w).bind fun ms =>
      (div? ((ms * SportsWalking.KM_PER_H_IN_M_IN_S) ^ 2)
          height_in_metres).map fun x =>
        (SportsWalking.COEF_WEIGHT * w.weight_kg
          + x * SportsWalking.MEAN_SPEED_IN_2_AND_HEIGHT * w.weight_kg)
          * minutes

/-- `Swimming.get_spent_calories`:
`(mean_speed + MEAN_SPEED_MOVE) * SPEED_MULTIPLIER * weight_kg * duration_h`. -/
def Swimming.get_spent_calories (s : Swimming) : Option ℚ :=
  (Swimming.get_mean_speed s).map fun ms =>
    (ms + Swimming.MEAN_SPEED_MOVE) * Swimming.SPEED_MULTIPLIER
      * s.weight_kg * s.duration_h

/-- `Training.show_training_info` specialised to `Running`: the class name and
duration plus the three computed quantities, in source order. -/
def Running.show_training_info (r : Running) : Option InfoMessage :=
  (Running.get_distance r).bind fun dist =>
    (Running.get_mean_speed r).bind fun speed =>
      (Running.get_spent_calories r).map fun cal =>
        ⟨"Running", r.duration_h, dist, speed, cal⟩

/-- `Training.show_training_info` specialised to `SportsWalking`. -/
def SportsWalking.show_training_info (w : SportsWalking) : Option InfoMessage :=
  (SportsWalking.get_distance w).bind fun dist =>
    (SportsWalking.get_mean_speed w).bind fun speed =>
      (SportsWalking.get_spent_calories w).map fun cal =>
        ⟨"SportsWalking", w.duration_h, dist, speed, cal⟩

/-- `Training.show_training_info` specialised to `Swimming`. -/
def Swimming.show_training_info (s : Swimming) : Option InfoMessage :=
  (Swimming.get_distance s).bind fun dist =>
    (Swimming.get_mean_speed s).bind fun speed =>
      (Swimming.get_spent_calories s).map fun cal =>
        ⟨"Swimming", s.duration_h, dist, speed, cal⟩

/-- The closed set of concrete training classes constructed by `read_package`. -/
inductive Training where
  | running : Running → Training
  | walking : SportsWalking → Training
  | swimming : Swimming → Training
deriving DecidableEq, Repr

/-- Virtual dispatch of `get_distance` over the concrete classes. -/
def Training.get_distance : Training → Option ℚ
  | .running r => Running.get_distance r
  | .walking w => SportsWalking.get_distance w
  | .swimming s => Swimming.get_distance s

/-- Virtual dispatch of `get_mean_speed` over the concrete classes. -/
def Training.get_mean_speed : Training → Option ℚ
  | .running r => Running.get_mean_speed r
  | .walking w => SportsWalking.get_mean_speed w
  | .swimming s => Swimming.get_mean_speed s

/-- Virtual dispatch of `get_spent_calories` over the concrete classes. -/
def Training.get_spent_calories : Training → Option ℚ
  | .running r => Running.get_spent_calories r
  | .walking w => SportsWalking.get_spent_calories w
  | .swimming s => Swimming.get_spent_calories s

/-- Virtual dispatch of `show_training_info` over the concrete classes. -/
def Training.show_training_info : Training → Option InfoMessage
  | .running r => Running.show_training_info r
  | .walking w => SportsWalking.show_training_info w
  | .swimming s => Swimming.show_training_info s

/-- The two exception classes caught by `read_package`. -/
inductive PackageError where
  | keyError : PackageError
  | typeError : PackageError
deriving DecidableEq, Repr

/-- `read_package`: dictionary lookup of the workout-type code (miss raises
`KeyError`), then construction `trainings[workout_type](*data)` (an arity
mismatch raises `TypeError`).  A caught exception means no `Training` is
returned. -/
def read_package (workout_type : String) (data : List ℚ) :
    Except PackageError Training :=
  if workout_type = "SWM" then
    match data with
    | [a, d, w, lp, cp] => .ok (.swimming ⟨a, d, w, lp, cp⟩)
    | _ => .error .typeError
  else if workout_type = "RUN" then
    match data with
    | [a, d, w] => .ok (.running ⟨a, d, w⟩)
    | _ => .error .typeError
  else if workout_type = "WLK" then
    match data with
    | [a, d, w, h] => .ok (.walking ⟨a, d, w, h⟩)
    | _ => .error .typeError
  else
    .error .keyError

/-- Round to the nearest integer, ties to even, as Python `format` does for
the `.3f` conversion. -/
def roundHalfEven (x : ℚ) : ℤ :=
  if x - ⌊x⌋ = 1 / 2 then (if 2 ∣ ⌊x⌋ then ⌊x⌋ else ⌊x⌋ + 1) else round x

/-- The Python `.3f` format conversion on an exact rational: the value is
rounded to the nearest thousandth and printed with exactly three digits
after the decimal point. -/
def format3 (q : ℚ) : String :=
  let n : ℤ := roundHalfEven (q * 1000)
  let sign : String := if n < 0 then "-" else ""
  let m : ℕ := n.natAbs
  sign ++ toString (m / 1000) ++ "." ++
    String.mk [Nat.digitChar (m / 100 % 10), Nat.digitChar (m / 10 % 10),
      Nat.digitChar (m % 10)]

/-- `InfoMessage.get_message`: the fixed template of the dataclass, with each
placeholder replaced by the corresponding field (`.3f` → `format3`). -/
def InfoMessage.get_message (m : InfoMessage) : String :=
  "Тип тренировки: " ++ m.training_type
    ++ "; Длительность: " ++ format3 m.duration
    ++ " ч.; Дистанция: " ++ format3 m.distance
    ++ " км; Ср. скорость: " ++ format3 m.speed
    ++ " км/ч; Потрачено ккал: " ++ format3 m.calories ++ "."

/-- The positivity conditions the spec imposes on a correctly constructed
record: positive duration and weight, plus positive height for walking. -/
def validRecord : Training → Prop
  | .running r => 0 < r.duration_h ∧ 0 < r.weight_kg
  | .walking w => 0 < w.duration_h ∧ 0 < w.weight_kg ∧ 0 < w.height_sm
  | .swimming s => 0 < s.duration_h ∧ 0 < s.weight_kg

instance (t : Training) : Decidable (validRecord t) := by
  cases t <;> simp only [validRecord] <;> infer_instance

lemma div?_of_ne (a b : ℚ) (h : b ≠ 0) : div? a b = some (a / b) := by
  simp [div?, h]

lemma div?_thousand (a : ℚ) : div? a Training.M_IN_KM = some (a / 1000) := by
  norm_num [div?, Training.M_IN_KM]

/-- C1: for every Running or SportsWalking record `get_distance()` returns
`action * 0.65 / 1000`, and for every Swimming record it returns
`action * 1.38 / 1000` (action count times the variant's step length divided
by meters-per-km). -/
theorem get_distance_formula :
    (∀ r : Running, Running.get_distance r = some (r.action * 0.65 / 1000)) ∧
    (∀ w : SportsWalking,
      SportsWalking.get_distance w = some (w.action * 0.65 / 1000)) ∧
    (∀ s : Swimming, Swimming.get_distance s = some (s.action * 1.38 / 1000)) := by
  refine ⟨fun r => ?_, fun w => ?_, fun s => ?_⟩ <;>
    simp [Running.get_distance, SportsWalking.get_distance, Swimming.get_distance,
      Training.LEN_STEP, Swimming.LEN_STEP, div?_thousand]

/-- C2: with nonzero duration, Running and SportsWalking mean speed is the
computed distance divided by the duration, while Swimming mean speed is the
pool-based value `length_pool_m * count_pool / 1000 / duration_h`, which does
not use `get_distance()` (in particular it ignores the action count). -/
theorem get_mean_speed_formula :
    (∀ r : Running, r.duration_h ≠ 0 →
      Running.get_mean_speed r
        = (Running.get_distance r).map fun d => d / r.duration_h) ∧
    (∀ w : SportsWalking, w.duration_h ≠ 0 →
      SportsWalking.get_mean_speed w
        = (SportsWalking.get_distance w).map fun d => d / w.duration_h) ∧
    (∀ s : Swimming, s.duration_h ≠ 0 →
      Swimming.get_mean_speed s
        = some (s.length_pool_m * s.count_pool / 1000 / s.duration_h)) ∧
    (∀ s : Swimming, ∀ a : ℚ,
      Swimming.get_mean_speed { s with action := a }
        = Swimming.get_mean_speed s) := by
  refine ⟨fun r h => ?_, fun w h => ?_, fun s h => ?_, fun s a => rfl⟩ <;>
    simp [Running.get_mean_speed, SportsWalking.get_mean_speed,
      Swimming.get_mean_speed, Running.get_distance, SportsWalking.get_distance,
      div?_thousand, div?_of_ne _ _ h]

theorem get_mean_speed_formula_witness :
    ((1 : ℚ) ≠ 0)
      ∧ Swimming.get_mean_speed ⟨720, 1, 80, 25, 40⟩
        = some ((Swimming.mk 720 1 80 25 40).length_pool_m
            * (Swimming.mk 720 1 80 25 40).count_pool / 1000
            / (Swimming.mk 720 1 80 25 40).duration_h) :=
  ⟨by norm_num, get_mean_speed_formula.2.2.1 ⟨720, 1, 80, 25, 40⟩ (by norm_num)⟩

/-- C3: with nonzero duration, Running calories equal
`(18 * mean_speed + 1.79) * weight_kg / 1000 * (duration_h * 60)`. -/
theorem running_calories_formula (r : Running) (h : r.duration_h ≠ 0) :
    Running.get_spent_calories r
      = (Running.get_mean_speed r).map fun ms =>
          (18 * ms + 1.79) * r.weight_kg / 1000 * (r.duration_h * 60) := by
  simp [Running.get_spent_calories, Running.get_mean_speed, Running.get_distance,
    Running.CALORIES_MEAN_SPEED_MULTIPLIER, Running.CALORIES_MEAN_SPEED_SHIFT,
    Training.H_IN_M, div?_thousand, div?_of_ne _ _ h]

theorem running_calories_formula_witness :
    ((1 : ℚ) ≠ 0)
      ∧ Running.get_spent_calories ⟨15000, 1, 75⟩
        = (Running.get_mean_speed ⟨15000, 1, 75⟩).map fun ms =>
            (18 * ms + 1.79) * (Running.mk 15000 1 75).weight_kg / 1000
              * ((Running.mk 15000 1 75).duration_h * 60) :=
  ⟨by norm_num, running_calories_formula ⟨15000, 1, 75⟩ (by norm_num)⟩

/-- C4: with nonzero duration and nonzero height, SportsWalking calories equal
`(0.035 * weight + ((mean_speed * 0.278)^2 / (height_sm / 100)) * 0.029
  * weight) * (duration_h * 60)`. -/
theorem walking_calories_formula (w : SportsWalking) (h1 : w.duration_h ≠ 0)
    (h2 : w.height_sm ≠ 0) :
    SportsWalking.get_spent_calories w
      = (SportsWalking.get_mean_speed w).map fun ms =>
          (0.035 * w.weight_kg
            + ((ms * 0.278) ^ 2 / (w.height_sm / 100)) * 0.029 * w.weight_kg)
            * (w.duration_h * 60) := by
  have hh : w.height_sm / (100 : ℚ) ≠ 0 := div_ne_zero h2 (by norm_num)
  simp [SportsWalking.get_spent_calories, SportsWalking.get_mean_speed,
    SportsWalking.get_distance, SportsWalking.COEF_WEIGHT,
    SportsWalking.MEAN_SPEED_IN_2_AND_HEIGHT, SportsWalking.KM_PER_H_IN_M_IN_S,
    SportsWalking.SM_IN_M, Training.H_IN_M, div?_thousand,
    div?_of_ne w.height_sm 100 (by norm_num), div?_of_ne _ _ h1,
    div?_of_ne _ _ hh]

theorem walking_calories_formula_witness :
    ((1 : ℚ) ≠ 0) ∧ ((180 : ℚ) ≠ 0)
      ∧ SportsWalking.get_spent_calories ⟨9000, 1, 75, 180⟩
        = (SportsWalking.get_mean_speed ⟨9000, 1, 75, 180⟩).map fun ms =>
            (0.035 * (SportsWalking.mk 9000 1 75 180).weight_kg
              + ((ms * 0.278) ^ 2
                  / ((SportsWalking.mk 9000 1 75 180).height_sm / 100))
                * 0.029 * (SportsWalking.mk 9000 1 75 180).weight_kg)
              * ((SportsWalking.mk 9000 1 75 180).duration_h * 60) :=
  ⟨by norm_num, by norm_num,
    walking_calories_formula ⟨9000, 1, 75, 180⟩ (by norm_num) (by norm_num)⟩

/-- C5: with nonzero duration, Swimming calories equal
`(mean_speed + 1.1) * 2 * weight_kg * duration_h`, where the mean speed is the
pool-based value `length_pool_m * count_pool / 1000 / duration_h`. -/
theorem swimming_calories_formula (s : Swimming) (h : s.duration_h ≠ 0) :
    Swimming.get_mean_speed s
      = some (s.length_pool_m * s.count_pool / 1000 / s.duration_h)
    ∧ Swimming.get_spent_calories s
      = some ((s.length_pool_m * s.count_pool / 1000 / s.duration_h + 1.1) * 2
          * s.weight_kg * s.duration_h) := by
  constructor <;>
    simp [Swimming.get_mean_speed, Swimming.get_spent_calories,
      Swimming.MEAN_SPEED_MOVE, Swimming.SPEED_MULTIPLIER, div?_thousand,
      div?_of_ne _ _ h]

theorem swimming_calories_formula_witness :
    ((1 : ℚ) ≠ 0)
      ∧ (Swimming.get_mean_speed ⟨720, 1, 80, 25, 40⟩
          = some ((Swimming.mk 720 1 80 25 40).length_pool_m
              * (Swimming.mk 720 1 80 25 40).count_pool / 1000
              / (Swimming.mk 720 1 80 25 40).duration_h)
        ∧ Swimming.get_spent_calories ⟨720, 1, 80, 25, 40⟩
          = some (((Swimming.mk 720 1 80 25 40).length_pool_m
                * (Swimming.mk 720 1 80 25 40).count_pool / 1000
                / (Swimming.mk 720 1 80 25 40).duration_h + 1.1) * 2
              * (Swimming.mk 720 1 80 25 40).weight_kg
              * (Swimming.mk 720 1 80 25 40).duration_h)) :=
  ⟨by norm_num, swimming_calories_formula ⟨720, 1, 80, 25, 40⟩ (by norm_num)⟩

/-- C6: any workout-type code outside SWM, RUN, WLK makes `read_package`
report the unknown-workout-kind error (`KeyError` arm) for every payload;
no `Training` is produced. -/
theorem read_package_unknown_code (workout_type : String) (data : List ℚ)
    (h : workout_type ∉ (["SWM", "RUN", "WLK"] : List String)) :
    read_package workout_type data = .error .keyError := by
  simp only [List.mem_cons, List.not_mem_nil, or_false, not_or] at h
  obtain ⟨h1, h2, h3⟩ := h
  simp [read_package, h1, h2, h3]

theorem read_package_unknown_code_witness :
    ("XYZ" ∉ (["SWM", "RUN", "WLK"] : List String))
      ∧ read_package "XYZ" [1, 2, 3] = .error .keyError :=
  ⟨by decide, read_package_unknown_code "XYZ" [1, 2, 3] (by decide)⟩

/-- C7: for a known code, a payload whose length differs from the matched
class's constructor arity (3 for RUN, 4 for WLK, 5 for SWM) makes
`read_package` report the invalid-data error (`TypeError` arm), while a
payload of matching length yields the fully constructed model. -/
theorem read_package_arity (data : List ℚ) :
    (data.length ≠ 3 → read_package "RUN" data = .error .typeError)
    ∧ (data.length ≠ 4 → read_package "WLK" data = .error .typeError)
    ∧ (data.length ≠ 5 → read_package "SWM" data = .error .typeError)
    ∧ (∀ a d w, read_package "RUN" [a, d, w] = .ok (.running ⟨a, d, w⟩))
    ∧ (∀ a d w x, read_package "WLK" [a, d, w, x] = .ok (.walking ⟨a, d, w, x⟩))
    ∧ (∀ a d w lp cp,
        read_package "SWM" [a, d, w, lp, cp] = .ok (.swimming ⟨a, d, w, lp, cp⟩)) := by
  refine ⟨fun h => ?_, fun h => ?_, fun h => ?_,
    fun a d w => rfl, fun a d w x => rfl, fun a d w lp cp => rfl⟩ <;>
  · rcases data with _ | ⟨p, _ | ⟨q, _ | ⟨r, _ | ⟨s, _ | ⟨t, _ | ⟨u, rest⟩⟩⟩⟩⟩⟩ <;>
      first
        | rfl
        | exact absurd rfl h

theorem read_package_arity_witness :
    (([(1 : ℚ), 2] : List ℚ).length ≠ 3)
      ∧ read_package "RUN" [1, 2] = .error .typeError :=
  ⟨by decide, (read_package_arity [1, 2]).1 (by decide)⟩

lemma digitChar_isDigit (d : ℕ) (h : d < 10) : (Nat.digitChar d).isDigit = true := by
  interval_cases d <;> decide

/-- C8: the summary string is the single fixed template with fields in the
order workout kind, duration, distance, mean speed, calories, and every
numeric field is rendered with exactly 3 digits after the decimal point. -/
theorem info_message_template (m : InfoMessage) :
    InfoMessage.get_message m
      = "Тип тренировки: " ++ m.training_type
          ++ "; Длительность: " ++ format3 m.duration
          ++ " ч.; Дистанция: " ++ format3 m.distance
          ++ " км; Ср. скорость: " ++ format3 m.speed
          ++ " км/ч; Потрачено ккал: " ++ format3 m.calories ++ "."
    ∧ ∀ q : ℚ, ∃ pre rest : String,
        format3 q = pre ++ "." ++ rest ∧ rest.length = 3
          ∧ rest.data.all Char.isDigit = true := by
  refine ⟨rfl, fun q => ?_⟩
  refine ⟨(if roundHalfEven (q * 1000) < 0 then "-" else "")
      ++ toString ((roundHalfEven (q * 1000)).natAbs / 1000),
    String.mk [Nat.digitChar ((roundHalfEven (q * 1000)).natAbs / 100 % 10),
      Nat.digitChar ((roundHalfEven (q * 1000)).natAbs / 10 % 10),
      Nat.digitChar ((roundHalfEven (q * 1000)).natAbs % 10)], rfl, rfl, ?_⟩
  simp [List.all, digitChar_isDigit _ (Nat.mod_lt _ (by norm_num))]

/-- C9 (counterexample): two Swimming records that agree on every field except
`action` can give different `get_distance()` results, refuting the claim that
Swimming distance does not depend on the action count. -/
theorem swimming_distance_uses_action :
    Swimming.get_distance ⟨0, 1, 80, 25, 40⟩
      ≠ Swimming.get_distance ⟨720, 1, 80, 25, 40⟩ := by
  simp only [Swimming.get_distance, Swimming.LEN_STEP, div?_thousand]
  intro hsome
  have := Option.some.inj hsome
  norm_num at this

/-- C9 (amended): the Swimming mean speed does not depend on the action
count: two Swimming records that agree on all fields except `action` produce
the same `get_mean_speed()` result. -/
theorem swimming_mean_speed_ignores_action (s : Swimming) (a : ℚ) :
    Swimming.get_mean_speed { s with action := a } = Swimming.get_mean_speed s :=
  rfl

/-- C10: on a correctly constructed record (positive duration and weight,
positive height for walking) every computation-layer operation succeeds:
`get_distance`, `get_mean_speed`, `get_spent_calories` and
`show_training_info` all return a value. -/
theorem computation_layer_total (t : Training) (h : validRecord t) :
    (Training.get_distance t).isSome = true
    ∧ (Training.get_mean_speed t).isSome = true
    ∧ (Training.get_spent_calories t).isSome = true
    ∧ (Training.show_training_info t).isSome = true := by
  cases t with
  | running r =>
    obtain ⟨hd, -⟩ := h
    simp [Training.get_distance, Training.get_mean_speed,
      Training.get_spent_calories, Training.show_training_info,
      Running.show_training_info, Running.get_spent_calories,
      Running.get_mean_speed, Running.get_distance, div?_thousand,
      div?_of_ne _ _ hd.ne']
  | walking w =>
    obtain ⟨hd, -, hh⟩ := h
    simp [Training.get_distance, Training.get_mean_speed,
      Training.get_spent_calories, Training.show_training_info,
      SportsWalking.show_training_info, SportsWalking.get_spent_calories,
      SportsWalking.get_mean_speed, SportsWalking.get_distance,
      SportsWalking.SM_IN_M, div?_thousand, div?_of_ne _ _ hd.ne',
      div?_of_ne w.height_sm 100 (by norm_num),
      div?_of_ne _ _ (div_ne_zero hh.ne' (by norm_num : (100 : ℚ) ≠ 0))]
  | swimming s =>
    obtain ⟨hd, -⟩ := h
    simp [Training.get_distance, Training.get_mean_speed,
      Training.get_spent_calories, Training.show_training_info,
      Swimming.show_training_info, Swimming.get_spent_calories,
      Swimming.get_mean_speed, Swimming.get_distance, div?_thousand,
      div?_of_ne _ _ hd.ne']

theorem computation_layer_total_witness :
    validRecord (.walking ⟨9000, 1, 75, 180⟩)
      ∧ ((Training.get_distance (.walking ⟨9000, 1, 75, 180⟩)).isSome = true
        ∧ (Training.get_mean_speed (.walking ⟨9000, 1, 75, 180⟩)).isSome = true
        ∧ (Training.get_spent_calories (.walking ⟨9000, 1, 75, 180⟩)).isSome = true
        ∧ (Training.show_training_info (.walking ⟨9000, 1, 75, 180⟩)).isSome = true) :=
  ⟨by refine ⟨by norm_num, by norm_num, by norm_num⟩,
    computation_layer_total (.walking ⟨9000, 1, 75, 180⟩)
      (by refine ⟨by norm_num, by norm_num, by norm_num⟩)⟩
